import Mathlib

/-!
Verification of the wastream process core: the shared HTTP client singleton
(src/wastream/utils/http_client.py), the lifespan manager and the request
logging middleware (src/wastream/main.py).

The embedding is a direct state-passing translation of the Python code:
the HTTPClient class-level field `_client` becomes an Option field of an
explicit state record, awaited collaborator calls that can raise become
outcome parameters, and log lines become structured entries mirroring the
fields of the f-strings the code emits.
-/

/-! Definitions -/

/-- Model of an httpx.AsyncClient handle as configured by
HTTPClient.get_client. The id field models Python object identity: each
construction receives a fresh id, so distinct constructions give handles
that compare unequal even when the configuration coincides. -/
structure ClientHandle where
  id : Nat
  timeoutSeconds : Nat
  proxies : Option (List (String × String))
  follow_redirects : Bool
  max_connections : Option Nat
  max_keepalive_connections : Option Nat
deriving DecidableEq

/-- Python truthiness of the PROXY_URL config value: None and the empty
string are falsy, any other string is truthy. -/
def proxyConfigured : Option String → Bool
  | none => false
  | some p => !(p == "")

/-- Construction of the httpx.AsyncClient in get_client (http_client.py
lines 18-24): timeout=Timeout(15.0), proxies set to the all:// mapping when
PROXY_URL is truthy and None otherwise, follow_redirects=True, and
Limits(max_connections=None, max_keepalive_connections=None). -/
def buildClient (PROXY_URL : Option String) (freshId : Nat) : ClientHandle :=
  { id := freshId
    timeoutSeconds := 15
    proxies :=
      match PROXY_URL with
      | some p => if p = "" then none else some [("all://", p)]
      | none => none
    follow_redirects := true
    max_connections := none
    max_keepalive_connections := none }

/-- State of the HTTPClient singleton: the class-level `_client` field,
plus a fresh-id counter modelling object allocation. -/
structure HTTPClientState where
  _client : Option ClientHandle
  nextId : Nat
deriving DecidableEq

/-- State at process start: no handle has ever been constructed. -/
def initState : HTTPClientState := { _client := none, nextId := 0 }

/-- HTTPClient.get_client (http_client.py lines 16-25): if `_client` is
None, construct a new AsyncClient and store it; return the stored handle.
The Bool records whether this call performed a construction. -/
def get_client (PROXY_URL : Option String) (s : HTTPClientState) :
    ClientHandle × HTTPClientState × Bool :=
  match s._client with
  | some c => (c, s, false)
  | none =>
    let c := buildClient PROXY_URL s.nextId
    (c, { _client := some c, nextId := s.nextId + 1 }, true)

/-- A call into the HTTPClient surface: get_client directly, or get/post
(http_client.py lines 27-33), each of which first calls get_client. -/
inductive ClientOp
  | callGetClient
  | callGet (url : String)
  | callPost (url : String)
deriving DecidableEq

/-- Effect of one call on the singleton state. get and post delegate to
get_client for the handle; the outbound request itself does not touch the
singleton state. -/
def runOp (PROXY_URL : Option String) (op : ClientOp) (s : HTTPClientState) :
    ClientHandle × HTTPClientState × Bool :=
  match op with
  | ClientOp.callGetClient => get_client PROXY_URL s
  | ClientOp.callGet _ => get_client PROXY_URL s
  | ClientOp.callPost _ => get_client PROXY_URL s

/-- A sequence of calls with no intervening close: returns the handle each
call received, the final state, and how many constructions happened. -/
def runOps (PROXY_URL : Option String) :
    List ClientOp → HTTPClientState → List ClientHandle × HTTPClientState × Nat
  | [], s => ([], s, 0)
  | op :: ops, s =>
    let r := runOp PROXY_URL op s
    let rest := runOps PROXY_URL ops r.2.1
    (r.1 :: rest.1, rest.2.1, (if r.2.2 then 1 else 0) + rest.2.2)

/-- Outcome of awaiting self._client.aclose() inside close. -/
inductive AcloseOutcome
  | ok
  | err (e : String)
deriving DecidableEq

/-- HTTPClient.close (http_client.py lines 35-38): if `_client` is truthy,
await its aclose() and then set `_client` to None. When aclose raises, the
assignment on the next line never runs and the error propagates (first
component some e); otherwise no error is raised (first component none). -/
def close (acloseResult : AcloseOutcome) (s : HTTPClientState) :
    Option String × HTTPClientState :=
  match s._client with
  | none => (none, s)
  | some _ =>
    match acloseResult with
    | AcloseOutcome.ok => (none, { s with _client := none })
    | AcloseOutcome.err e => (some e, s)

/-- Observable steps of the lifespan context manager (main.py lines 45-59). -/
inductive LifeEvent
  | setupDb
  | scheduleSweeper
  | running
  | cancelSweeper
  | awaitSweeper
  | closeClient
  | teardownDb
deriving DecidableEq

/-- Outcome of `await setup_database()` at startup. -/
inductive SetupOutcome
  | ok
  | fail (e : String)
deriving DecidableEq

/-- Startup half of lifespan (main.py lines 47-50): await setup_database();
if it raises, the exception propagates before create_task and before the
yield, so the sweeper is never scheduled and the running point is never
reached. On success, the cleanup task is scheduled and the yield is reached. -/
def lifespanStartup (o : SetupOutcome) : List LifeEvent × Option String :=
  match o with
  | SetupOutcome.fail e => ([LifeEvent.setupDb], some e)
  | SetupOutcome.ok =>
    ([LifeEvent.setupDb, LifeEvent.scheduleSweeper, LifeEvent.running], none)

/-- Outcome of `await cleanup_task` after cancellation was requested. -/
inductive AwaitOutcome
  | completed
  | cancelledSignal
  | otherError (e : String)
deriving DecidableEq

/-- Outcome of `await teardown_database()`. -/
inductive TeardownOutcome
  | ok
  | fail (e : String)
deriving DecidableEq

/-- Shutdown half of lifespan (main.py lines 52-59):
cleanup_task.cancel(); then `await cleanup_task` inside a try whose only
except clause catches asyncio.CancelledError with pass; then
await http_client.close(); then await teardown_database(). No step after
the try block is guarded: an exception from the await other than
CancelledError propagates out of the generator and the last two steps
never run; the close step is the close function of this file acting on the
singleton state s with aclose outcome ac, and when it raises, the error
propagates and teardown never runs; an error from teardown itself
propagates after all four steps have run. The result is the trace of the
steps that ran, the escaping error if any, and the singleton state after
the shutdown. -/
def lifespanShutdown (o : AwaitOutcome) (s : HTTPClientState)
    (ac : AcloseOutcome) (td : TeardownOutcome) :
    List LifeEvent × Option String × HTTPClientState :=
  match o with
  | AwaitOutcome.otherError e =>
    ([LifeEvent.cancelSweeper, LifeEvent.awaitSweeper], some e, s)
  | _ =>
    match close ac s with
    | (some e, s2) =>
      ([LifeEvent.cancelSweeper, LifeEvent.awaitSweeper, LifeEvent.closeClient],
       some e, s2)
    | (none, s2) =>
      match td with
      | TeardownOutcome.fail e =>
        ([LifeEvent.cancelSweeper, LifeEvent.awaitSweeper,
          LifeEvent.closeClient, LifeEvent.teardownDb], some e, s2)
      | TeardownOutcome.ok =>
        ([LifeEvent.cancelSweeper, LifeEvent.awaitSweeper,
          LifeEvent.closeClient, LifeEvent.teardownDb], none, s2)

/-- The four shutdown steps named by the spec, in the order the code
performs them when the await does not raise a foreign error. -/
def fourShutdownSteps : List LifeEvent :=
  [LifeEvent.cancelSweeper, LifeEvent.awaitSweeper,
   LifeEvent.closeClient, LifeEvent.teardownDb]

/-- Outcome of `await call_next(request)` in the middleware. -/
inductive HandlerOutcome
  | ok (status : Nat)
  | raises (e : String)
deriving DecidableEq

/-- A log line emitted by LoguruMiddleware.dispatch, with the f-string
fields kept structured: the ERROR line of the except clause, and the timing
line of the finally clause carrying method, path, the rendered status and
the elapsed time. -/
inductive LogEntry
  | errorLog (e : String)
  | apiLog (method : String) (path : String) (status : String) (elapsed : Int)
deriving DecidableEq

/-- Whether a log entry is the error-marked line. -/
def isErrorLog : LogEntry → Bool
  | LogEntry.errorLog _ => true
  | _ => false

/-- LoguruMiddleware.dispatch (main.py lines 26-40): record the start time,
run the handler; on an exception log the ERROR line and re-raise; in the
finally clause, when the path differs from /health, log the timing line,
whose status field is the status code when the response variable exists in
locals and the placeholder string 500 otherwise. tStart and tEnd are the
two time.time() readings. -/
def dispatch (method path : String) (outcome : HandlerOutcome)
    (tStart tEnd : Int) : List LogEntry × Except String Nat :=
  let process_time := tEnd - tStart
  match outcome with
  | HandlerOutcome.ok status =>
    (if path = "/health" then []
     else [LogEntry.apiLog method path (toString status) process_time],
     Except.ok status)
  | HandlerOutcome.raises e =>
    (LogEntry.errorLog e ::
      (if path = "/health" then []
       else [LogEntry.apiLog method path "500" process_time]),
     Except.error e)

/-! Helper lemmas -/

theorem get_client_of_some (P : Option String) (s : HTTPClientState)
    (c : ClientHandle) (h : s._client = some c) :
    get_client P s = (c, s, false) := by
  simp [get_client, h]

theorem runOp_of_some (P : Option String) (op : ClientOp)
    (s : HTTPClientState) (c : ClientHandle) (h : s._client = some c) :
    runOp P op s = (c, s, false) := by
  cases op <;> simp [runOp, get_client_of_some P s c h]

theorem runOps_of_some (P : Option String) (c : ClientHandle) :
    ∀ (ops : List ClientOp) (s : HTTPClientState), s._client = some c →
      runOps P ops s = (List.replicate ops.length c, s, 0) := by
  intro ops
  induction ops with
  | nil => intro s _; simp [runOps]
  | cons op ops ih =>
    intro s hs
    simp [runOps, runOp_of_some P op s c hs, ih s hs, List.replicate]

/-! Claim theorems -/

/-- Claim C3: starting from process start, any nonempty sequence of calls to
get_client (also via get and post) with no intervening close performs
exactly one construction, and every call in the sequence receives that one
first-constructed handle. -/
theorem get_client_singleton (P : Option String) (ops : List ClientOp)
    (hne : ops ≠ []) :
    (runOps P ops initState).2.2 = 1 ∧
    ∀ h ∈ (runOps P ops initState).1, h = buildClient P 0 := by
  match ops with
  | [] => exact absurd rfl hne
  | op :: rest =>
    have h1 : runOp P op initState =
        (buildClient P 0,
         { _client := some (buildClient P 0), nextId := 1 }, true) := by
      cases op <;> rfl
    have h2 := runOps_of_some P (buildClient P 0) rest
      { _client := some (buildClient P 0), nextId := 1 } rfl
    constructor
    · simp [runOps, h1, h2]
    · intro h hmem
      simp [runOps, h1, h2, List.mem_replicate] at hmem
      rcases hmem with h | ⟨-, h⟩ <;> exact h

/-- Claim C3 witness: the singleton property at a concrete one-call sequence. -/
theorem get_client_singleton_witness :
    (([ClientOp.callGetClient] : List ClientOp) ≠ []) ∧
    ((runOps none [ClientOp.callGetClient] initState).2.2 = 1 ∧
     ∀ h ∈ (runOps none [ClientOp.callGetClient] initState).1,
       h = buildClient none 0) :=
  ⟨by simp, get_client_singleton none [ClientOp.callGetClient] (by simp)⟩

/-- Claim C4: after a successful close of a live handle the state holds no
handle, close raised nothing, and the next get_client call constructs and
returns a fresh handle (a genuinely new object, distinct from the stale
pre-close handle) rather than raising or returning the stale one. The
hypothesis hid is the allocation invariant: any stored handle was created
by an earlier allocation, so its id is below the fresh-id counter. -/
theorem close_rearm (P : Option String) (s : HTTPClientState)
    (c : ClientHandle) (hc : s._client = some c) (hid : c.id < s.nextId) :
    (close AcloseOutcome.ok s).1 = none ∧
    ((close AcloseOutcome.ok s).2)._client = none ∧
    (get_client P (close AcloseOutcome.ok s).2).2.2 = true ∧
    (get_client P (close AcloseOutcome.ok s).2).1 = buildClient P s.nextId ∧
    (get_client P (close AcloseOutcome.ok s).2).1 ≠ c := by
  have h1 : close AcloseOutcome.ok s = (none, { s with _client := none }) := by
    simp [close, hc]
  rw [h1]
  refine ⟨rfl, rfl, rfl, rfl, ?_⟩
  intro he
  have hidEq : (buildClient P s.nextId).id = c.id := by
    have := congrArg ClientHandle.id he
    simpa [get_client] using this
  simp [buildClient] at hidEq
  omega

/-- Claim C4 witness: re-arming after close at a concrete state holding one
previously constructed handle. -/
theorem close_rearm_witness :
    (({ _client := some (buildClient none 0), nextId := 1 } :
        HTTPClientState)._client = some (buildClient none 0)) ∧
    ((buildClient none 0).id < 1) ∧
    ((close AcloseOutcome.ok
        { _client := some (buildClient none 0), nextId := 1 }).1 = none ∧
     ((close AcloseOutcome.ok
        { _client := some (buildClient none 0), nextId := 1 }).2)._client = none ∧
     (get_client none (close AcloseOutcome.ok
        { _client := some (buildClient none 0), nextId := 1 }).2).2.2 = true ∧
     (get_client none (close AcloseOutcome.ok
        { _client := some (buildClient none 0), nextId := 1 }).2).1
        = buildClient none 1 ∧
     (get_client none (close AcloseOutcome.ok
        { _client := some (buildClient none 0), nextId := 1 }).2).1
        ≠ buildClient none 0) :=
  ⟨rfl, by decide,
   close_rearm none { _client := some (buildClient none 0), nextId := 1 }
     (buildClient none 0) rfl (by decide)⟩

/-- Claim C5: when get_client finds no existing handle, the handle it
constructs has the fixed 15 second timeout, redirect following enabled,
unbounded connection and keep-alive pool limits, and its proxy routing maps
all schemes to the configured proxy endpoint exactly when one is
configured (a truthy PROXY_URL), and is absent otherwise. -/
theorem constructed_client_config (P : Option String) (s : HTTPClientState)
    (hs : s._client = none) :
    (get_client P s).2.2 = true ∧
    (get_client P s).1.timeoutSeconds = 15 ∧
    (get_client P s).1.follow_redirects = true ∧
    (get_client P s).1.max_connections = none ∧
    (get_client P s).1.max_keepalive_connections = none ∧
    (∀ p, P = some p → p ≠ "" →
      (get_client P s).1.proxies = some [("all://", p)]) ∧
    (proxyConfigured P = false → (get_client P s).1.proxies = none) := by
  have h1 : get_client P s =
      (buildClient P s.nextId,
       { _client := some (buildClient P s.nextId), nextId := s.nextId + 1 },
       true) := by
    simp [get_client, hs]
  rw [h1]
  refine ⟨rfl, rfl, rfl, rfl, rfl, ?_, ?_⟩
  · intro p hp hne
    simp [buildClient, hp, hne]
  · intro hfalse
    cases P with
    | none => rfl
    | some p =>
      simp [proxyConfigured] at hfalse
      simp [buildClient, hfalse]

/-- Claim C5 witness: the constructed configuration at a concrete state
with a configured proxy endpoint. -/
theorem constructed_client_config_witness :
    (initState._client = none) ∧
    ((get_client (some "http://proxy.local:8080") initState).2.2 = true ∧
     (get_client (some "http://proxy.local:8080") initState).1.timeoutSeconds = 15 ∧
     (get_client (some "http://proxy.local:8080") initState).1.follow_redirects = true ∧
     (get_client (some "http://proxy.local:8080") initState).1.max_connections = none ∧
     (get_client (some "http://proxy.local:8080") initState).1.max_keepalive_connections = none ∧
     (∀ p, (some "http://proxy.local:8080" : Option String) = some p → p ≠ "" →
       (get_client (some "http://proxy.local:8080") initState).1.proxies
         = some [("all://", p)]) ∧
     (proxyConfigured (some "http://proxy.local:8080") = false →
       (get_client (some "http://proxy.local:8080") initState).1.proxies = none)) :=
  ⟨rfl, constructed_client_config (some "http://proxy.local:8080") initState rfl⟩

/-- Claim C6: a successful request to the liveness path /health emits no
log entry at all on the success path; a successful status-200 request to
any other path emits exactly one entry carrying the method, the path, the
string 200 and a non-negative elapsed time; and the liveness path is not
exempt from the failure-path error line, which is emitted for /health too. -/
theorem middleware_liveness_exemption (m p : String) (status : Nat)
    (t1 t2 : Int) (ht : t1 ≤ t2) (hp : p ≠ "/health") :
    (dispatch m "/health" (HandlerOutcome.ok status) t1 t2).1 = [] ∧
    (dispatch m p (HandlerOutcome.ok 200) t1 t2).1
      = [LogEntry.apiLog m p "200" (t2 - t1)] ∧
    0 ≤ t2 - t1 ∧
    (∀ e, (dispatch m "/health" (HandlerOutcome.raises e) t1 t2).1
      = [LogEntry.errorLog e]) := by
  refine ⟨?_, ?_, ?_, ?_⟩
  · simp [dispatch]
  · have h200 : toString (200 : Nat) = "200" := by decide
    simp [dispatch, hp, h200]
  · omega
  · intro e; simp [dispatch]

/-- Claim C6 witness: the liveness exemption at a concrete request. -/
theorem middleware_liveness_exemption_witness :
    ((3 : Int) ≤ 5) ∧ (("/stream" : String) ≠ "/health") ∧
    ((dispatch "GET" "/health" (HandlerOutcome.ok 200) 3 5).1 = [] ∧
     (dispatch "GET" "/stream" (HandlerOutcome.ok 200) 3 5).1
       = [LogEntry.apiLog "GET" "/stream" "200" (5 - 3)] ∧
     (0 : Int) ≤ 5 - 3 ∧
     (∀ e, (dispatch "GET" "/health" (HandlerOutcome.raises e) 3 5).1
       = [LogEntry.errorLog e])) :=
  ⟨by decide, by decide,
   middleware_liveness_exemption "GET" "/stream" 200 3 5 (by decide) (by decide)⟩

/-- Claim C7: when the handler raises, the middleware emits exactly one
error-marked line, re-raises the original exception unchanged, and on a
non-liveness path the timing line renders the placeholder string 500 in
its status field instead of a status code. -/
theorem middleware_error_logging (m p e : String) (t1 t2 : Int) :
    ((dispatch m p (HandlerOutcome.raises e) t1 t2).1.filter isErrorLog)
      = [LogEntry.errorLog e] ∧
    (dispatch m p (HandlerOutcome.raises e) t1 t2).2 = Except.error e ∧
    (p ≠ "/health" →
      (dispatch m p (HandlerOutcome.raises e) t1 t2).1
        = [LogEntry.errorLog e, LogEntry.apiLog m p "500" (t2 - t1)]) := by
  by_cases hp : p = "/health"
  · subst hp
    refine ⟨by simp [dispatch, isErrorLog], by simp [dispatch], ?_⟩
    intro hcontra
    exact absurd rfl hcontra
  · refine ⟨?_, by simp [dispatch], ?_⟩
    · simp [dispatch, hp, isErrorLog, List.filter]
    · intro _
      simp [dispatch, hp]

/-- Claim C7 witness: error logging and re-raise at a concrete failing
request. -/
theorem middleware_error_logging_witness :
    ((dispatch "POST" "/stream" (HandlerOutcome.raises "boom") 2 7).1.filter
        isErrorLog = [LogEntry.errorLog "boom"]) ∧
    ((dispatch "POST" "/stream" (HandlerOutcome.raises "boom") 2 7).2
        = Except.error "boom") ∧
    (("/stream" : String) ≠ "/health" →
      (dispatch "POST" "/stream" (HandlerOutcome.raises "boom") 2 7).1
        = [LogEntry.errorLog "boom", LogEntry.apiLog "POST" "/stream" "500" (7 - 2)]) :=
  middleware_error_logging "POST" "/stream" "boom" 2 7

/-- Claim C8: when database initialization raises, the startup trace stops
at the setup step with the error propagating: the running point is never
reached and the sweeper is never scheduled; on successful initialization
the sweeper is scheduled strictly after setup, before the running point. -/
theorem startup_fail_fast (e : String) :
    lifespanStartup (SetupOutcome.fail e) = ([LifeEvent.setupDb], some e) ∧
    LifeEvent.running ∉ (lifespanStartup (SetupOutcome.fail e)).1 ∧
    LifeEvent.scheduleSweeper ∉ (lifespanStartup (SetupOutcome.fail e)).1 ∧
    lifespanStartup SetupOutcome.ok
      = ([LifeEvent.setupDb, LifeEvent.scheduleSweeper, LifeEvent.running],
         none) := by
  refine ⟨rfl, ?_, ?_, rfl⟩ <;> simp [lifespanStartup]

/-- Claim C9: closing when no handle exists, whether never opened or
already closed, is a no-op that raises nothing and leaves the state
unchanged; in particular a second close right after a successful close is
such a no-op, so close is idempotent. -/
theorem close_idempotent (o : AcloseOutcome) (s : HTTPClientState) :
    (s._client = none → close o s = (none, s)) ∧
    ((close AcloseOutcome.ok s).2)._client = none ∧
    close o ((close AcloseOutcome.ok s).2)
      = (none, (close AcloseOutcome.ok s).2) := by
  have noneCase : ∀ t : HTTPClientState, t._client = none → close o t = (none, t) := by
    intro t ht
    simp [close, ht]
  have key : ((close AcloseOutcome.ok s).2)._client = none := by
    cases hs : s._client <;> simp [close, hs]
  exact ⟨noneCase s, key, noneCase _ key⟩

/-- Claim C9 witness: idempotent no-op close at the never-opened initial
state. -/
theorem close_idempotent_witness :
    (initState._client = none → close AcloseOutcome.ok initState
      = (none, initState)) ∧
    ((close AcloseOutcome.ok initState).2)._client = none ∧
    close AcloseOutcome.ok ((close AcloseOutcome.ok initState).2)
      = (none, (close AcloseOutcome.ok initState).2) :=
  close_idempotent AcloseOutcome.ok initState

/-- Claim C10: when the underlying aclose raises during close, the error
propagates and the handle field is not reset: the state still refers to the
old handle, and a subsequent get_client returns that stale handle without
constructing a fresh one. -/
theorem close_error_keeps_stale (P : Option String) (s : HTTPClientState)
    (c : ClientHandle) (e : String) (hc : s._client = some c) :
    close (AcloseOutcome.err e) s = (some e, s) ∧
    get_client P s = (c, s, false) :=
  ⟨by simp [close, hc], get_client_of_some P s c hc⟩

/-- Claim C10 witness: a failing aclose at a concrete state with a live
handle. -/
theorem close_error_keeps_stale_witness :
    (({ _client := some (buildClient none 0), nextId := 1 } :
        HTTPClientState)._client = some (buildClient none 0)) ∧
    (close (AcloseOutcome.err "socket error")
        { _client := some (buildClient none 0), nextId := 1 }
      = (some "socket error",
         { _client := some (buildClient none 0), nextId := 1 }) ∧
     get_client none { _client := some (buildClient none 0), nextId := 1 }
      = (buildClient none 0,
         { _client := some (buildClient none 0), nextId := 1 }, false)) :=
  ⟨rfl, close_error_keeps_stale none
    { _client := some (buildClient none 0), nextId := 1 }
    (buildClient none 0) "socket error" rfl⟩

/-- Claim C1 counterexample: a shutdown in which the sweeper await raises a
non-cancellation error performs only the first two steps; the close-client
and teardown steps are absent, so the four-step sequence does not hold for
every shutdown. -/
theorem shutdown_four_steps_counterexample :
    (lifespanShutdown (AwaitOutcome.otherError "sweeper crashed") initState
        AcloseOutcome.ok TeardownOutcome.ok).1 ≠ fourShutdownSteps ∧
    LifeEvent.closeClient
      ∉ (lifespanShutdown (AwaitOutcome.otherError "sweeper crashed") initState
          AcloseOutcome.ok TeardownOutcome.ok).1 ∧
    LifeEvent.teardownDb
      ∉ (lifespanShutdown (AwaitOutcome.otherError "sweeper crashed") initState
          AcloseOutcome.ok TeardownOutcome.ok).1 := by
  decide

/-- Claim C1 amended: in every shutdown in which awaiting the sweeper
either completes normally or raises the cancellation signal, and closing
the shared HTTP client raises nothing, exactly the four steps run in
strict order: cancel sweeper, await sweeper, close the shared HTTP client,
run database teardown, regardless of whether teardown itself raises inside
the fourth step; when the sweeper await raises a non-cancellation error or
the client close raises, the later steps do not run. -/
theorem shutdown_order (o : AwaitOutcome) (s : HTTPClientState)
    (ac : AcloseOutcome) (td : TeardownOutcome)
    (hno : ∀ e, o ≠ AwaitOutcome.otherError e)
    (hac : (close ac s).1 = none) :
    (lifespanShutdown o s ac td).1 = fourShutdownSteps := by
  cases hcl : close ac s with
  | mk e1 s2 =>
    rw [hcl] at hac
    simp at hac
    subst hac
    cases o with
    | otherError e => exact absurd rfl (hno e)
    | completed => cases td <;> simp [lifespanShutdown, hcl, fourShutdownSteps]
    | cancelledSignal => cases td <;> simp [lifespanShutdown, hcl, fourShutdownSteps]

/-- Claim C1 witness: the four-step order when the await raises the
cancellation signal and the client close raises nothing. -/
theorem shutdown_order_witness :
    (∀ e, AwaitOutcome.cancelledSignal ≠ AwaitOutcome.otherError e) ∧
    (close AcloseOutcome.ok initState).1 = none ∧
    (lifespanShutdown AwaitOutcome.cancelledSignal initState AcloseOutcome.ok
        TeardownOutcome.ok).1 = fourShutdownSteps :=
  ⟨fun _ h => AwaitOutcome.noConfusion h, rfl,
   shutdown_order AwaitOutcome.cancelledSignal initState AcloseOutcome.ok
     TeardownOutcome.ok (fun _ h => AwaitOutcome.noConfusion h) rfl⟩

/-- Claim C2 counterexample: when the sweeper await raises an error other
than cancellation, the remaining shutdown steps do not run: the close-client
and teardown steps are absent from the trace while the error propagates,
refuting the statement that all four steps execute for every error. -/
theorem shutdown_all_steps_counterexample :
    (lifespanShutdown (AwaitOutcome.otherError "db connection lost") initState
        AcloseOutcome.ok TeardownOutcome.ok).2.1 = some "db connection lost" ∧
    LifeEvent.closeClient
      ∉ (lifespanShutdown (AwaitOutcome.otherError "db connection lost") initState
          AcloseOutcome.ok TeardownOutcome.ok).1 ∧
    LifeEvent.teardownDb
      ∉ (lifespanShutdown (AwaitOutcome.otherError "db connection lost") initState
          AcloseOutcome.ok TeardownOutcome.ok).1 := by
  decide

/-- Claim C2 amended: in a shutdown with a live client handle, if the
sweeper await raises the cancellation signal it is swallowed and the close
step runs, and when both the close and the teardown raise nothing the
remaining steps complete in order with no error escaping; if the sweeper
await raises any other error, that error propagates and neither the
close-client step nor the teardown step runs; if the client close raises,
that error propagates and the teardown step does not run. -/
theorem shutdown_error_semantics (s : HTTPClientState) (c : ClientHandle)
    (td : TeardownOutcome) (hs : s._client = some c) :
    lifespanShutdown AwaitOutcome.cancelledSignal s AcloseOutcome.ok
        TeardownOutcome.ok
      = (fourShutdownSteps, none, { s with _client := none }) ∧
    (∀ e, lifespanShutdown (AwaitOutcome.otherError e) s AcloseOutcome.ok td
      = ([LifeEvent.cancelSweeper, LifeEvent.awaitSweeper], some e, s)) ∧
    (∀ e, lifespanShutdown AwaitOutcome.cancelledSignal s (AcloseOutcome.err e) td
      = ([LifeEvent.cancelSweeper, LifeEvent.awaitSweeper, LifeEvent.closeClient],
         some e, s)) := by
  have hclose_ok : close AcloseOutcome.ok s = (none, { s with _client := none }) := by
    simp [close, hs]
  have hclose_err : ∀ e, close (AcloseOutcome.err e) s = (some e, s) := by
    intro e
    simp [close, hs]
  refine ⟨?_, ?_, ?_⟩
  · simp [lifespanShutdown, hclose_ok, fourShutdownSteps]
  · intro e
    simp [lifespanShutdown]
  · intro e
    cases td <;> simp [lifespanShutdown, hclose_err e]

/-- Claim C2 witness: the swallow and propagate semantics at a concrete
state holding one previously constructed handle. -/
theorem shutdown_error_semantics_witness :
    (({ _client := some (buildClient none 0), nextId := 1 } :
        HTTPClientState)._client = some (buildClient none 0)) ∧
    (lifespanShutdown AwaitOutcome.cancelledSignal
        { _client := some (buildClient none 0), nextId := 1 }
        AcloseOutcome.ok TeardownOutcome.ok
      = (fourShutdownSteps, none, { _client := none, nextId := 1 }) ∧
     (∀ e, lifespanShutdown (AwaitOutcome.otherError e)
        { _client := some (buildClient none 0), nextId := 1 }
        AcloseOutcome.ok TeardownOutcome.ok
      = ([LifeEvent.cancelSweeper, LifeEvent.awaitSweeper], some e,
         { _client := some (buildClient none 0), nextId := 1 })) ∧
     (∀ e, lifespanShutdown AwaitOutcome.cancelledSignal
        { _client := some (buildClient none 0), nextId := 1 }
        (AcloseOutcome.err e) TeardownOutcome.ok
      = ([LifeEvent.cancelSweeper, LifeEvent.awaitSweeper, LifeEvent.closeClient],
         some e, { _client := some (buildClient none 0), nextId := 1 }))) :=
  ⟨rfl, shutdown_error_semantics
    { _client := some (buildClient none 0), nextId := 1 }
    (buildClient none 0) TeardownOutcome.ok rfl⟩
